/-
Verification of the AI Flow Runner backend (Node/Express + OpenRouter/Groq
completion client) against its natural-language specification.

The JavaScript source is shallowly embedded: each JS function used by the
claims is translated into an executable Lean definition, with JS truthiness,
`String.prototype.includes`, `toLowerCase`, `trim` and the recursive
retry-by-reinvocation pattern modelled explicitly.  The external completion
API is an oracle parameter (`Nat → Attempt`, indexed by the retryCount at
which the attempt is made).
-/
import Mathlib

namespace AIFlow

/-! ## JS string primitives -/

/-- Whether the first list is a prefix of the second. -/
def startsWithList : List Char → List Char → Bool
  | [], _ => true
  | _ :: _, [] => false
  | p :: ps, c :: cs => p == c && startsWithList ps cs

/-- Whether the first list occurs contiguously inside the second. -/
def hasSubList (pat : List Char) : List Char → Bool
  | [] => startsWithList pat []
  | c :: cs => startsWithList pat (c :: cs) || hasSubList pat cs

/-- JS `haystack.includes(needle)`: substring containment (`"".includes`
is always `true`). -/
def jsIncludes (s pat : String) : Bool :=
  hasSubList pat.toList s.toList

/-- JS `str.toLowerCase()` (ASCII, which covers every constant the code
compares against); structural so that concrete inputs evaluate by `decide`. -/
def jsToLower (s : String) : String :=
  String.mk (s.toList.map Char.toLower)

/-- JS `str.trim()`: strip leading and trailing whitespace. -/
def jsTrim (s : String) : String :=
  String.mk (((s.toList.dropWhile Char.isWhitespace).reverse.dropWhile
    Char.isWhitespace).reverse)

/-- JS `str.charAt(0).toUpperCase() + str.slice(1)`. -/
def jsCapitalize (s : String) : String :=
  match s.toList with
  | [] => ""
  | c :: cs => String.mk (c.toUpper :: cs)

/-- JS truthiness of a possibly-absent string: `undefined` and `""` are falsy. -/
def strTruthy : Option String → Bool
  | some s => s ≠ ""
  | none => false

/-- JS truthiness of a possibly-absent number: `undefined` and `0` are falsy. -/
def natTruthy : Option Nat → Bool
  | some n => n ≠ 0
  | none => false

/-- One maximal run of whitespace becomes a single space: JS
`str.replace(/\s+/g, ' ')` on a character list (structural recursion so that
concrete inputs evaluate by `decide`). -/
def collapseWsList : List Char → List Char
  | [] => []
  | [c] => if c.isWhitespace then [' '] else [c]
  | c :: d :: cs =>
    if c.isWhitespace && d.isWhitespace then collapseWsList (d :: cs)
    else (if c.isWhitespace then ' ' else c) :: collapseWsList (d :: cs)

/-- JS `str.replace(/\s+/g, ' ')`. -/
def collapseWs (s : String) : String :=
  String.mk (collapseWsList s.toList)

/-! ## Language normalizer (`src/bookService.js` lines 24-75, and the
identical copy in `src/unnamed/part_000` lines 23-57) -/

/-- `BOOK_LANGUAGE_MAP` / `LANGUAGE_CODE_MAP`: code → full name. -/
def BOOK_LANGUAGE_MAP : List (String × String) :=
  [("en", "english"), ("ta", "tamil"), ("hi", "hindi"), ("es", "spanish"),
   ("fr", "french"), ("de", "german"), ("ja", "japanese"), ("zh", "chinese"),
   ("ko", "korean"), ("ar", "arabic"), ("pt", "portuguese"), ("te", "telugu"),
   ("ml", "malayalam")]

/-- `LANGUAGE_NAME_TO_CODE`: full name → code. -/
def LANGUAGE_NAME_TO_CODE : List (String × String) :=
  [("english", "en"), ("tamil", "ta"), ("hindi", "hi"), ("spanish", "es"),
   ("french", "fr"), ("german", "de"), ("japanese", "ja"), ("chinese", "zh"),
   ("korean", "ko"), ("arabic", "ar"), ("portuguese", "pt"), ("telugu", "te"),
   ("malayalam", "ml")]

/-- `normalizeLanguage(language)` from `src/bookService.js` lines 58-75:
`if (!language) return 'en'`; lower-case and trim; a known 2-letter code is
returned as-is; a known full name is mapped to its code; otherwise `'en'`. -/
def normalizeLanguage (language : String) : String :=
  if language = "" then "en"
  else
    let langLower := jsTrim (jsToLower language)
    if langLower.length = 2 ∧ (BOOK_LANGUAGE_MAP.lookup langLower).isSome then
      langLower
    else
      match LANGUAGE_NAME_TO_CODE.lookup langLower with
      | some code => code
      | none => "en"

/-- The fixed emotion vocabulary, in source declaration order. -/
def emotions : List String := ["stressed", "happy", "sad", "angry", "neutral"]

/-- `formatEmotionResult(result)` from `src/aiService.js` lines 328-339:
lower-case and trim, return the first listed emotion contained in the input,
capitalized; default `'Neutral'`. -/
def formatEmotionResult (result : String) : String :=
  let lowerResult := jsTrim (jsToLower result)
  match emotions.find? (fun emotion => jsIncludes lowerResult emotion) with
  | some emotion => jsCapitalize emotion
  | none => "Neutral"

/-- The emotion normalizer as worded by the claim: scan the vocabulary in
priority order, return the first whose lower-case form is a substring of the
lower-cased trimmed input, with its first letter capitalized; else Neutral. -/
def formatEmotionClaim (result : String) : String :=
  let inp := jsTrim (jsToLower result)
  match emotions.find? (fun emotion => jsIncludes inp (jsToLower emotion)) with
  | some emotion => jsCapitalize emotion
  | none => "Neutral"

/-- The fixed category labels, in source declaration order. -/
def categories : List String :=
  ["Work & Career", "Family & Relationships", "Health & Wellness",
   "Finance & Money", "Personal & General"]

/-- `formatCategoryResult(result)` from `src/aiService.js` lines 344-362:
lower-case and trim the input (the input is NOT whitespace-collapsed), return
the first category whose lower-cased whitespace-collapsed form is contained
in it; default `'Personal & General'`. -/
def formatCategoryResult (result : String) : String :=
  let lowerResult := jsTrim (jsToLower result)
  match categories.find?
      (fun category => jsIncludes lowerResult (collapseWs (jsToLower category))) with
  | some category => category
  | none => "Personal & General"

/-- The category normalizer as worded by the claim: ALSO collapses internal
whitespace of the input before the containment tests. -/
def formatCategoryClaim (result : String) : String :=
  let inp := collapseWs (jsTrim (jsToLower result))
  match categories.find?
      (fun category => jsIncludes inp (collapseWs (jsToLower category))) with
  | some category => category
  | none => "Personal & General"

/-- The category normalizer as amended: the input is only lower-cased and
trimmed; each category is compared via its lower-case form (whitespace
collapsing of the single-spaced category labels is a no-op). -/
def formatCategoryAmended (result : String) : String :=
  let inp := jsTrim (jsToLower result)
  match categories.find? (fun category => jsIncludes inp (jsToLower category)) with
  | some category => category
  | none => "Personal & General"

/-! ## Completion client (`src/aiService.js`): the two provider variants -/

/-- The two duplicated copies of the completion wrapper: the OpenRouter one
(`src/aiService.js` lines 66-189) and the Groq one (lines 414-528). -/
inductive Variant where
  | openRouter
  | groq
deriving DecidableEq, Repr

/-- A vendor error body: either a string or some other (truthy) JS object,
as discriminated by the `typeof errorBody === 'string'` check. -/
inductive ErrBody where
  | str (s : String)
  | obj
deriving DecidableEq, Repr

/-- JS truthiness of a possibly-absent error body (`""` is falsy, any
object is truthy). -/
def bodyTruthy : Option ErrBody → Bool
  | some (.str s) => s ≠ ""
  | some .obj => true
  | none => false

/-- The fields of an opaque vendor error object that the catch block reads:
`message`, `error.message`, the error being itself a string, `status`,
`statusCode`, numeric `code`, `response.status`, `error.code`, and the
three body candidates `body`, `response.data`, `error`. -/
structure VendorError where
  message : Option String := none
  errMessage : Option String := none
  selfStr : Option String := none
  status : Option Nat := none
  statusCode : Option Nat := none
  codeNum : Option Nat := none
  respStatus : Option Nat := none
  errCode : Option Nat := none
  body : Option ErrBody := none
  respData : Option ErrBody := none
  errObj : Option ErrBody := none
deriving DecidableEq, Repr

/-- Message extraction (`src/aiService.js` lines 114-125 / 451-462):
`error.message`, else `error.error?.message`, else the error itself when it
is a string, else `'Unknown error'`. -/
def extractMessage (e : VendorError) : String :=
  if strTruthy e.message then e.message.getD ""
  else if strTruthy e.errMessage then e.errMessage.getD ""
  else match e.selfStr with
    | some s => s
    | none => "Unknown error"

/-- Status-code extraction (lines 127-131 / 464-469): `status`, `statusCode`,
numeric `code`, `response.status`, (Groq only) `error.code`; default 500. -/
def extractCode (v : Variant) (e : VendorError) : Nat :=
  if natTruthy e.status then e.status.getD 0
  else if natTruthy e.statusCode then e.statusCode.getD 0
  else if natTruthy e.codeNum then e.codeNum.getD 0
  else if natTruthy e.respStatus then e.respStatus.getD 0
  else match v with
    | .groq => if natTruthy e.errCode then e.errCode.getD 0 else 500
    | .openRouter => 500

/-- Body extraction (lines 133-136 / 471-474): first truthy of `body`,
`response.data`, `error`. -/
def extractBody (e : VendorError) : Option ErrBody :=
  if bodyTruthy e.body then e.body
  else if bodyTruthy e.respData then e.respData
  else if bodyTruthy e.errObj then e.errObj
  else none

/-- `errorBody && typeof errorBody === 'string' &&
errorBody.toLowerCase().includes(pat)`. -/
def bodyHas (b : Option ErrBody) (pat : String) : Bool :=
  match b with
  | some (.str s) => s ≠ "" && jsIncludes (jsToLower s) pat
  | _ => false

/-- Rate-limit classification.  OpenRouter (lines 139-143): status 429, or
message contains `rate`/`limit`, or a string body contains `rate`.  Groq
(lines 477-482): additionally message `quota`, and string body
`rate`/`quota`.  Neither variant looks for `limit` in the body. -/
def isRateLimitOf : Variant → VendorError → Bool
  | .openRouter, e =>
    extractCode .openRouter e == 429
      || jsIncludes (jsToLower (extractMessage e)) "rate"
      || jsIncludes (jsToLower (extractMessage e)) "limit"
      || bodyHas (extractBody e) "rate"
  | .groq, e =>
    extractCode .groq e == 429
      || jsIncludes (jsToLower (extractMessage e)) "rate"
      || jsIncludes (jsToLower (extractMessage e)) "limit"
      || jsIncludes (jsToLower (extractMessage e)) "quota"
      || (bodyHas (extractBody e) "rate" || bodyHas (extractBody e) "quota")

/-- `MAX_RETRIES` (lines 67 / 415). -/
def MAX_RETRIES : Nat := 3

/-- `INITIAL_DELAY` in ms (lines 68 / 416). -/
def INITIAL_DELAY : Nat := 2000

/-- `MAX_DELAY` in ms (lines 69 / 417). -/
def MAX_DELAY : Nat := 30000

/-- The case-sensitive authentication keyword test (lines 180 / 519). -/
def authCond : Variant → String → Bool
  | .openRouter, m => jsIncludes m "cookie" || jsIncludes m "auth"
  | .groq, m => jsIncludes m "api key" || jsIncludes m "auth" || jsIncludes m "unauthorized"

/-- The provider/model-unavailable keyword test (lines 183 / 522). -/
def providerCond : Variant → String → Bool
  | .openRouter, m => jsIncludes m "provider"
  | .groq, m => jsIncludes m "model" || jsIncludes m "not found"

/-- Exhausted-retries message (lines 176 / 515); `MAX_RETRIES` interpolated. -/
def exhaustedRateMsg : String :=
  "Rate limit exceeded. Retried 3 times. Please wait 30-60 seconds and try again."

/-- Not-yet-exhausted rate-limit message (lines 178 / 517). -/
def transientRateMsg : Variant → String
  | .openRouter =>
    "Rate limit exceeded. The free model is temporarily rate-limited. Please wait 10-15 seconds and try again."
  | .groq => "Rate limit exceeded. Please wait 10-15 seconds and try again."

/-- Authentication-error message (lines 181 / 520). -/
def authMsg : Variant → String
  | .openRouter => "Authentication error. Please check your API key in .env file."
  | .groq => "Authentication error. Please check your GROQ_API_KEY in .env file."

/-- Provider-error message (lines 184 / 523). -/
def providerMsg : Variant → String
  | .openRouter =>
    "Model provider error. The free model may be temporarily unavailable. Please try again in a few moments."
  | .groq => "Model error. The requested model may be unavailable. Please try again in a few moments."

/-- The `enhancedError` thrown by the catch block. -/
structure EnhancedError where
  message : String
  statusCode : Nat
  isRateLimit : Bool
  retryCount : Nat
deriving DecidableEq, Repr

/-- Construction of the thrown `enhancedError` (lines 166-187 / 505-526):
fields from extraction, then the message (and for auth the status) overridden
by the specific-message branches. -/
def mkEnhanced (v : Variant) (e : VendorError) (retryCount : Nat) : EnhancedError :=
  let msg := extractMessage e
  let code := extractCode v e
  if isRateLimitOf v e then
    { message := if MAX_RETRIES ≤ retryCount then exhaustedRateMsg else transientRateMsg v
      statusCode := code, isRateLimit := true, retryCount := retryCount }
  else if authCond v msg then
    { message := authMsg v, statusCode := 401, isRateLimit := false, retryCount := retryCount }
  else if providerCond v msg then
    { message := providerMsg v, statusCode := code, isRateLimit := false, retryCount := retryCount }
  else
    { message := msg, statusCode := code, isRateLimit := false, retryCount := retryCount }

/-! ## Success-path content handling and the retry loop -/

/-- One item of a multi-part message content: a typed segment.  `text t`
models `{ type: 'text', text: t }` where the `text` field may be absent;
`other` is any segment whose `type` is not `'text'`. -/
inductive ContentItem where
  | text (t : Option String)
  | other
deriving DecidableEq, Repr

/-- A first-choice message content: a plain string or a segment list. -/
inductive JsContent where
  | str (s : String)
  | arr (items : List ContentItem)
deriving DecidableEq, Repr

/-- JS truthiness of `completion.choices[0]?.message?.content`: absent and
`""` are falsy, every array is truthy. -/
def contentTruthy : Option JsContent → Bool
  | none => false
  | some (.str s) => s ≠ ""
  | some (.arr _) => true

/-- `response.filter(i => i.type === 'text').map(i => i.text || '').join('')`
(lines 101-104). -/
def joinTextParts (items : List ContentItem) : String :=
  String.join (items.filterMap fun i =>
    match i with
    | .text t => some (t.getD "")
    | .other => none)

/-- The `Error('No response from AI agent')` thrown inside the try block
(lines 93 / 441): a plain Error object, caught by the same catch. -/
def noResponseErr : VendorError := { message := some "No response from AI agent" }

/-- The try-block success path (lines 90-108 / 438-445): falsy content throws
the no-response error; string content is trimmed and returned; array content
is reduced to its text segments (OpenRouter) or stringified JS-style via
`String(response)` (Groq, where each element is an object). -/
def extractText (v : Variant) (c : Option JsContent) : Except VendorError String :=
  if contentTruthy c then
    match c with
    | some (.str s) => .ok (jsTrim s)
    | some (.arr items) =>
      match v with
      | .openRouter => .ok (jsTrim (joinTextParts items))
      | .groq =>
        .ok (jsTrim (String.intercalate "," (items.map fun _ => "[object Object]")))
    | none => .error noResponseErr
  else .error noResponseErr

/-- One upstream attempt: the awaited vendor call either yields a completion
whose first-choice content is `content`, or throws a vendor error. -/
inductive Attempt where
  | success (content : Option JsContent)
  | failure (e : VendorError)
deriving DecidableEq, Repr

/-- The whole try block for one attempt: a vendor failure propagates, a
completion goes through content extraction (whose throw is also caught). -/
def processAttempt (v : Variant) (a : Attempt) : Except VendorError String :=
  match a with
  | .failure e => .error e
  | .success c => extractText v c

/-- Decidable equality of attempt results, for evaluating witnesses. -/
instance : DecidableEq (Except EnhancedError String) := fun a b =>
  match a, b with
  | .ok x, .ok y => if h : x = y then .isTrue (by rw [h]) else .isFalse (by simp [h])
  | .error x, .error y => if h : x = y then .isTrue (by rw [h]) else .isFalse (by simp [h])
  | .ok _, .error _ => .isFalse (by simp)
  | .error _, .ok _ => .isFalse (by simp)

/-- Observable outcome of `callAIAgent`: the returned text or thrown
`enhancedError`, plus the number of upstream attempts made and the list of
backoff sleeps (ms) performed, in order. -/
structure CallTrace where
  result : Except EnhancedError String
  attempts : Nat
  sleeps : List Nat
deriving DecidableEq, Repr

/-- The body of `callAIAgent`, fuelled so that it is structural.  The fuel is
`MAX_RETRIES + 1 - retryCount`; it reaches 0 only when `retryCount >
MAX_RETRIES`, where the retry guard `retryCount < MAX_RETRIES` is false
anyway, so the fuel-0 branch coincides with the non-retry branch of the
source. -/
def callAIAgentGo (v : Variant) (u : Nat → Attempt) : Nat → Nat → CallTrace
  | 0, rc =>
    (match processAttempt v (u rc) with
     | .ok s => { result := .ok s, attempts := 1, sleeps := [] }
     | .error e => { result := .error (mkEnhanced v e rc), attempts := 1, sleeps := [] })
  | fuel + 1, rc =>
    (match processAttempt v (u rc) with
     | .ok s => { result := .ok s, attempts := 1, sleeps := [] }
     | .error e =>
       if isRateLimitOf v e = true ∧ rc < MAX_RETRIES then
         let delay := min (INITIAL_DELAY * 2 ^ rc) MAX_DELAY
         let rest := callAIAgentGo v u fuel (rc + 1)
         { result := rest.result, attempts := rest.attempts + 1, sleeps := delay :: rest.sleeps }
       else { result := .error (mkEnhanced v e rc), attempts := 1, sleeps := [] })

/-- `callAIAgent(text, language, history, retryCount)` (lines 66-189 /
414-528), with the vendor call abstracted as the oracle `u` giving the
outcome of the attempt made at each retryCount.  Rate-limited failures with
`retryCount < MAX_RETRIES` sleep `min(INITIAL_DELAY * 2^retryCount,
MAX_DELAY)` and re-invoke with `retryCount + 1`; everything else resolves on
this attempt. -/
def callAIAgent (v : Variant) (u : Nat → Attempt) (retryCount : Nat) : CallTrace :=
  callAIAgentGo v u (MAX_RETRIES + 1 - retryCount) retryCount

/-! ## Outgoing message assembly (`src/aiService.js` lines 73-82 / 421-430)
and the call sites in `src/server.js` -/

/-- A chat turn `{ role, content }`. -/
structure ChatMessage where
  role : String
  content : String
deriving DecidableEq, Repr

/-- The outgoing message list (lines 73-82 / 421-430): history role-mapped
field by field, then one new `user` turn holding the prompt text. -/
def buildMessages (history : List ChatMessage) (text : String) : List ChatMessage :=
  history.map (fun msg => { role := msg.role, content := msg.content }) ++
    [{ role := "user", content := text }]

/-- The book-chat call site (`src/server.js` line 35):
`callAIAgent(prompt, normalizedLang, [])` — the caller-supplied history is in
scope but an empty history is passed, so it is absent from the outgoing list
(it is only rendered into the prompt text by `getBookChatbotPrompt`). -/
def bookChatOutgoing (_hist : List ChatMessage) (prompt : String) : List ChatMessage :=
  buildMessages [] prompt

/-- The workflow call site (`src/server.js` line 47 →
`processStepWithAI` → `callAIAgent(prompt, language, history)`,
`src/aiService.js` line 322): the caller's history is forwarded unchanged. -/
def workflowOutgoing (history : List ChatMessage) (prompt : String) : List ChatMessage :=
  buildMessages history prompt

/-- The outgoing list as worded by the claim: the history unchanged followed
by exactly one new user-role message holding the prompt text. -/
def claimOutgoing (history : List ChatMessage) (prompt : String) : List ChatMessage :=
  history ++ [{ role := "user", content := prompt }]

/-! ## HTTP layer (`src/server.js` and the `src/unnamed/part_000` variant) -/

/-- What the `catch` block of `POST /chat` reads off the caught error. -/
structure CaughtError where
  message : Option String := none
  statusCode : Option Nat := none
  status : Option Nat := none
  isRateLimit : Bool := false
  retryCount : Nat := 0
deriving DecidableEq, Repr

/-- The fixed HTTP rate-limit text (`src/server.js` line 78,
`src/unnamed/part_000` line 117). -/
def rateLimitHttpMsg : String :=
  "Rate limit exceeded. Please wait 10-15 seconds and try again. The free model has usage limits."

/-- `error.statusCode || error.status || 500` (line 71 / 110). -/
def catchStatus (e : CaughtError) : Nat :=
  if natTruthy e.statusCode then e.statusCode.getD 0
  else if natTruthy e.status then e.status.getD 0
  else 500

/-- Lines 74-79 / 113-118: `error.message || 'Internal server error'`,
replaced by the fixed rate-limit text when `error.isRateLimit` or the status
is 429 — independent of `retryCount`. -/
def catchMessage (e : CaughtError) : String :=
  let base := if strTruthy e.message then e.message.getD "" else "Internal server error"
  if e.isRateLimit || catchStatus e == 429 then rateLimitHttpMsg else base

/-- The error body sent by the catch block. -/
structure ErrorResponse where
  status : Nat
  error : String
deriving DecidableEq, Repr

/-- The catch block of `POST /chat` (lines 65-98 / 104-137). -/
def serverCatch (e : CaughtError) : ErrorResponse :=
  { status := catchStatus e, error := catchMessage e }

/-- How a thrown `enhancedError` is seen by the server catch block
(`enhancedError.status` is never set, so only `statusCode` is present). -/
def toCaught (e : EnhancedError) : CaughtError :=
  { message := some e.message, statusCode := some e.statusCode, status := none,
    isRateLimit := e.isRateLimit, retryCount := e.retryCount }

/-- The parsed request body of `POST /chat`. -/
structure ChatRequest where
  text : Option String := none
  language : Option String := none
  history : List ChatMessage := []
  stepType : Option String := none
deriving DecidableEq, Repr

/-- `isBookChatbotRequest(stepType)` (`src/bookService.js` lines 113-115):
`!stepType || stepType === 'book_chat'`. -/
def isBookChatbotRequest (stepType : Option String) : Bool :=
  !strTruthy stepType || stepType == some "book_chat"

/-- The JSON body of a `POST /chat` response. -/
inductive RespBody where
  | invalid (error : String) (success : Bool)
  | bookOk (question : String) (language : String) (answer : String)
  | workflowOk (response : String) (stepType : String) (language : String)
  | failed (error : String) (statusCode : Nat)
deriving DecidableEq, Repr

/-- An HTTP response: status plus JSON body. -/
structure HttpResp where
  status : Nat
  body : RespBody
deriving DecidableEq, Repr

/-- The `POST /chat` handler of `src/server.js` (lines 12-99).  The external
completion call is abstracted as its outcome `agent`; the second component
counts how many upstream calls the handler performed. -/
def handleChatServer (req : ChatRequest) (agent : Except CaughtError String) :
    HttpResp × Nat :=
  if strTruthy req.text = false then
    ({ status := 400, body := .invalid "Text is required" false }, 0)
  else
    let text := req.text.getD ""
    let lang := normalizeLanguage (req.language.getD "en")
    if isBookChatbotRequest req.stepType then
      match agent with
      | .ok answer => ({ status := 200, body := .bookOk text lang answer }, 1)
      | .error e =>
        ({ status := (serverCatch e).status,
           body := .failed (serverCatch e).error (serverCatch e).status }, 1)
    else
      let st := req.stepType.getD ""
      match agent with
      | .ok r =>
        let formatted :=
          if st = "detect_emotion" then formatEmotionResult r
          else if st = "categorize_text" then formatCategoryResult r
          else r
        ({ status := 200, body := .workflowOk formatted st lang }, 1)
      | .error e =>
        ({ status := (serverCatch e).status,
           body := .failed (serverCatch e).error (serverCatch e).status }, 1)

/-- The `POST /chat` handler of the `src/unnamed/part_000` variant (lines
64-138), which additionally requires `stepType`. -/
def handleChatStrict (req : ChatRequest) (agent : Except CaughtError String) :
    HttpResp × Nat :=
  if strTruthy req.text = false then
    ({ status := 400, body := .invalid "Text is required" false }, 0)
  else if strTruthy req.stepType = false then
    ({ status := 400, body := .invalid "stepType is required" false }, 0)
  else
    let lang := normalizeLanguage (req.language.getD "en")
    let st := req.stepType.getD ""
    match agent with
    | .ok r =>
      let formatted :=
        if st = "detect_emotion" then formatEmotionResult r
        else if st = "categorize_text" then formatCategoryResult r
        else r
      ({ status := 200, body := .workflowOk formatted st lang }, 1)
    | .error e =>
      ({ status := (serverCatch e).status,
         body := .failed (serverCatch e).error (serverCatch e).status }, 1)

/-! ## Step lemmas for the retry loop -/

/-- A successful attempt resolves the call immediately. -/
theorem callAIAgent_ok (v : Variant) (u : Nat → Attempt) (rc : Nat) (s : String)
    (h : processAttempt v (u rc) = .ok s) :
    callAIAgent v u rc = { result := .ok s, attempts := 1, sleeps := [] } := by
  unfold callAIAgent
  rcases hf : MAX_RETRIES + 1 - rc with _ | f <;> simp [callAIAgentGo, h]

/-- A failing attempt outside the retry guard throws the enhanced error at
once: one attempt, no sleep. -/
theorem callAIAgent_noRetry (v : Variant) (u : Nat → Attempt) (rc : Nat) (e : VendorError)
    (h : processAttempt v (u rc) = .error e)
    (hng : ¬(isRateLimitOf v e = true ∧ rc < MAX_RETRIES)) :
    callAIAgent v u rc =
      { result := .error (mkEnhanced v e rc), attempts := 1, sleeps := [] } := by
  unfold callAIAgent
  rcases hf : MAX_RETRIES + 1 - rc with _ | f <;> simp [callAIAgentGo, h, hng]

/-- A rate-limited failure below the retry bound sleeps the backoff delay and
re-invokes the call at `retryCount + 1`. -/
theorem callAIAgent_retryStep (v : Variant) (u : Nat → Attempt) (rc : Nat) (e : VendorError)
    (hrc : rc < MAX_RETRIES)
    (h : processAttempt v (u rc) = .error e)
    (hrl : isRateLimitOf v e = true) :
    callAIAgent v u rc =
      { result := (callAIAgent v u (rc + 1)).result,
        attempts := (callAIAgent v u (rc + 1)).attempts + 1,
        sleeps := min (INITIAL_DELAY * 2 ^ rc) MAX_DELAY :: (callAIAgent v u (rc + 1)).sleeps } := by
  unfold callAIAgent
  have hf : MAX_RETRIES + 1 - rc = (MAX_RETRIES + 1 - (rc + 1)) + 1 := by
    unfold MAX_RETRIES at *
    omega
  rw [hf]
  simp [callAIAgentGo, h, hrl, hrc]

/-- The enhanced error thrown for a rate-limited failure. -/
theorem mkEnhanced_rateLimit (v : Variant) (e : VendorError) (rc : Nat)
    (hrl : isRateLimitOf v e = true) :
    mkEnhanced v e rc =
      { message := if MAX_RETRIES ≤ rc then exhaustedRateMsg else transientRateMsg v,
        statusCode := extractCode v e, isRateLimit := true, retryCount := rc } := by
  simp [mkEnhanced, hrl]

/-- Against an upstream whose every attempt fails rate-limited, the call
raises the exhausted-retries error after 4 attempts and sleeps of
2 s, 4 s, 8 s. -/
theorem callAIAgent_exhaust (v : Variant) (u : Nat → Attempt) (errs : Nat → VendorError)
    (hu : ∀ n, u n = .failure (errs n))
    (hrl : ∀ n, isRateLimitOf v (errs n) = true) :
    callAIAgent v u 0 =
      { result := .error { message := exhaustedRateMsg, statusCode := extractCode v (errs 3),
                           isRateLimit := true, retryCount := 3 },
        attempts := 4, sleeps := [2000, 4000, 8000] } := by
  have hp : ∀ n, processAttempt v (u n) = .error (errs n) := by
    intro n
    rw [hu n]
    rfl
  have h3 : callAIAgent v u 3 =
      { result := .error { message := exhaustedRateMsg, statusCode := extractCode v (errs 3),
                           isRateLimit := true, retryCount := 3 },
        attempts := 1, sleeps := [] } := by
    rw [callAIAgent_noRetry v u 3 (errs 3) (hp 3) (by simp [MAX_RETRIES])]
    rw [mkEnhanced_rateLimit v (errs 3) 3 (hrl 3)]
    simp [MAX_RETRIES]
  have h2 : callAIAgent v u 2 =
      { result := .error { message := exhaustedRateMsg, statusCode := extractCode v (errs 3),
                           isRateLimit := true, retryCount := 3 },
        attempts := 2, sleeps := [8000] } := by
    rw [callAIAgent_retryStep v u 2 (errs 2) (by simp [MAX_RETRIES]) (hp 2) (hrl 2)]
    norm_num [h3, INITIAL_DELAY, MAX_DELAY]
  have h1 : callAIAgent v u 1 =
      { result := .error { message := exhaustedRateMsg, statusCode := extractCode v (errs 3),
                           isRateLimit := true, retryCount := 3 },
        attempts := 3, sleeps := [4000, 8000] } := by
    rw [callAIAgent_retryStep v u 1 (errs 1) (by simp [MAX_RETRIES]) (hp 1) (hrl 1)]
    norm_num [h2, INITIAL_DELAY, MAX_DELAY]
  rw [callAIAgent_retryStep v u 0 (errs 0) (by simp [MAX_RETRIES]) (hp 0) (hrl 0)]
  norm_num [h1, INITIAL_DELAY, MAX_DELAY]

/-! ## Claim C1 -/

/-- C1: rate-limited failures below the bound sleep `min(2000 * 2^retryCount, 30000)` ms
and re-invoke with `retryCount + 1`; non-rate-limited failures are never retried; an
always-rate-limited upstream raises the retries-exhausted error after 4 attempts. -/
theorem C1_retry_and_exhaustion :
    (∀ (v : Variant) (u : Nat → Attempt) (rc : Nat) (e : VendorError),
      rc < 3 → u rc = .failure e → isRateLimitOf v e = true →
      callAIAgent v u rc =
        { result := (callAIAgent v u (rc + 1)).result,
          attempts := (callAIAgent v u (rc + 1)).attempts + 1,
          sleeps := min (2000 * 2 ^ rc) 30000 :: (callAIAgent v u (rc + 1)).sleeps }) ∧
    (∀ (v : Variant) (u : Nat → Attempt) (rc : Nat) (e : VendorError),
      u rc = .failure e → isRateLimitOf v e = false →
      callAIAgent v u rc =
        { result := .error (mkEnhanced v e rc), attempts := 1, sleeps := [] }) ∧
    (∀ (v : Variant) (u : Nat → Attempt) (errs : Nat → VendorError),
      (∀ n, u n = .failure (errs n)) → (∀ n, isRateLimitOf v (errs n) = true) →
      callAIAgent v u 0 =
        { result := .error { message := exhaustedRateMsg, statusCode := extractCode v (errs 3),
                             isRateLimit := true, retryCount := 3 },
          attempts := 4, sleeps := [2000, 4000, 8000] }) := by
  refine ⟨?_, ?_, ?_⟩
  · intro v u rc e hrc hu hrl
    have hp : processAttempt v (u rc) = .error e := by
      rw [hu]
      rfl
    exact callAIAgent_retryStep v u rc e (by simpa [MAX_RETRIES] using hrc) hp hrl
  · intro v u rc e hu hrl
    have hp : processAttempt v (u rc) = .error e := by
      rw [hu]
      rfl
    exact callAIAgent_noRetry v u rc e hp (by simp [hrl])
  · intro v u errs hu hrl
    exact callAIAgent_exhaust v u errs hu hrl

/-- The always-429 vendor error used to instantiate C1. -/
def always429 : VendorError := { status := some 429 }

/-- Witness for C1 at concrete inputs: an upstream failing 429 on every
attempt, and a single non-rate-limited failure. -/
theorem C1_witness :
    callAIAgent .openRouter (fun _ => .failure always429) 0 =
      { result := .error { message := exhaustedRateMsg, statusCode := 429,
                           isRateLimit := true, retryCount := 3 },
        attempts := 4, sleeps := [2000, 4000, 8000] } ∧
    callAIAgent .openRouter (fun _ => .failure { statusCode := some 503 }) 0 =
      { result := .error { message := "Unknown error", statusCode := 503,
                           isRateLimit := false, retryCount := 0 },
        attempts := 1, sleeps := [] } ∧
    callAIAgent .groq (fun n => if n = 0 then .failure always429 else .success (some (.str "ok"))) 0 =
      { result := .ok "ok", attempts := 2, sleeps := [2000] } := by
  refine ⟨?_, ?_, ?_⟩
  · exact (C1_retry_and_exhaustion.2.2 .openRouter (fun _ => .failure always429)
      (fun _ => always429) (fun _ => rfl)
      (fun _ => (by decide : isRateLimitOf Variant.openRouter always429 = true))).trans (by decide)
  · exact (C1_retry_and_exhaustion.2.1 .openRouter (fun _ => .failure { statusCode := some 503 })
      0 { statusCode := some 503 } rfl (by decide)).trans (by decide)
  · exact (C1_retry_and_exhaustion.1 .groq
      (fun n => if n = 0 then .failure always429 else .success (some (.str "ok")))
      0 always429 (by decide) rfl (by decide)).trans (by decide)


/-! ## Claim C2 -/

/-- The rate-limit classification exactly as the claim words it: status 429,
or the extracted message contains `rate` or `limit` (Groq also `quota`), or
the stringified error body contains those same terms. -/
def IsRateLimitClaim (v : Variant) (e : VendorError) : Prop :=
  extractCode v e = 429 ∨
  jsIncludes (jsToLower (extractMessage e)) "rate" = true ∨
  jsIncludes (jsToLower (extractMessage e)) "limit" = true ∨
  (v = .groq ∧ jsIncludes (jsToLower (extractMessage e)) "quota" = true) ∨
  (∃ s, extractBody e = some (.str s) ∧
    (jsIncludes (jsToLower s) "rate" = true ∨ jsIncludes (jsToLower s) "limit" = true ∨
     (v = .groq ∧ jsIncludes (jsToLower s) "quota" = true)))

/-- The amended classification: the error body is only searched for `rate`
(Groq variant: `rate` or `quota`), never for `limit`. -/
def IsRateLimitAmended (v : Variant) (e : VendorError) : Prop :=
  extractCode v e = 429 ∨
  jsIncludes (jsToLower (extractMessage e)) "rate" = true ∨
  jsIncludes (jsToLower (extractMessage e)) "limit" = true ∨
  (v = .groq ∧ jsIncludes (jsToLower (extractMessage e)) "quota" = true) ∨
  (∃ s, extractBody e = some (.str s) ∧ s ≠ "" ∧
    (jsIncludes (jsToLower s) "rate" = true ∨
     (v = .groq ∧ jsIncludes (jsToLower s) "quota" = true)))

/-- The vendor error whose only information is a string body `"limit"`. -/
def bodyLimitErr : VendorError := { body := some (.str "limit") }

/-- C2 counterexample: a failure whose string body contains `limit` (but not
`rate`), with no status and no usable message, satisfies the claim's
classification yet is NOT classified rate-limited by the code (both
variants). -/
theorem C2_counterexample :
    IsRateLimitClaim .openRouter bodyLimitErr ∧
    isRateLimitOf .openRouter bodyLimitErr = false ∧
    isRateLimitOf .groq bodyLimitErr = false := by
  refine ⟨?_, by decide, by decide⟩
  exact Or.inr (Or.inr (Or.inr (Or.inr ⟨"limit", by decide, Or.inr (Or.inl (by decide))⟩)))

/-- C2 amended: `isRateLimit` holds iff the status code is 429, or the
extracted message contains `rate` or `limit` (Groq also `quota`), or the
extracted error body is a nonempty string containing `rate` (Groq also
`quota`); the body is never searched for `limit`. -/
theorem C2_rate_limit_amended (v : Variant) (e : VendorError) :
    isRateLimitOf v e = true ↔ IsRateLimitAmended v e := by
  cases v <;>
    rcases hb : extractBody e with _ | (s | _) <;>
      simp [isRateLimitOf, IsRateLimitAmended, bodyHas, hb] <;> tauto


/-! ## Claim C3 -/

/-- The no-response error is never classified rate-limited. -/
theorem isRateLimitOf_noResponse (v : Variant) :
    isRateLimitOf v noResponseErr = false := by
  cases v <;> decide

/-- The no-response error reaches the caller unmodified: message preserved,
status 500. -/
theorem mkEnhanced_noResponse (v : Variant) (rc : Nat) :
    mkEnhanced v noResponseErr rc =
      { message := "No response from AI agent", statusCode := 500,
        isRateLimit := false, retryCount := rc } := by
  cases v <;> rfl

/-- C3 counterexample: whitespace-only string content is truthy, so both
variants accept it and return the empty string — an accepted empty result,
contradicting the claim that every successful return is non-empty. -/
theorem C3_counterexample :
    (callAIAgent .openRouter (fun _ => .success (some (.str " "))) 0).result =
      .ok "" ∧
    (callAIAgent .groq (fun _ => .success (some (.str " "))) 0).result = .ok "" ∧
    (callAIAgent .openRouter (fun _ => .success (some (.arr []))) 0).result =
      .ok "" := by
  decide

/-- C3 amended: absent or empty-string content raises the
`No response from AI agent` error (status 500, not retried); content that is
a non-empty string `s` is accepted as `trim(s)` — which is empty when `s` is
whitespace-only; array content in the OpenRouter variant is accepted as its
concatenated text segments, trimmed, which may also be empty; array content
in the Groq variant is accepted as the JS stringification of the array
(a comma-joined `[object Object]` per element), trimmed. -/
theorem C3_content_amended :
    (∀ (v : Variant) (u : Nat → Attempt) (rc : Nat),
      (u rc = .success none ∨ u rc = .success (some (.str ""))) →
      callAIAgent v u rc =
        { result := .error { message := "No response from AI agent", statusCode := 500,
                             isRateLimit := false, retryCount := rc },
          attempts := 1, sleeps := [] }) ∧
    (∀ (v : Variant) (u : Nat → Attempt) (rc : Nat) (s : String),
      s ≠ "" → u rc = .success (some (.str s)) →
      callAIAgent v u rc = { result := .ok (jsTrim s), attempts := 1, sleeps := [] }) ∧
    (∀ (u : Nat → Attempt) (rc : Nat) (items : List ContentItem),
      u rc = .success (some (.arr items)) →
      callAIAgent .openRouter u rc =
        { result := .ok (jsTrim (joinTextParts items)), attempts := 1, sleeps := [] }) ∧
    (∀ (u : Nat → Attempt) (rc : Nat) (items : List ContentItem),
      u rc = .success (some (.arr items)) →
      callAIAgent .groq u rc =
        { result := .ok (jsTrim (String.intercalate "," (items.map fun _ => "[object Object]"))),
          attempts := 1, sleeps := [] }) := by
  refine ⟨?_, ?_, ?_, ?_⟩
  · intro v u rc hu
    have hp : processAttempt v (u rc) = .error noResponseErr := by
      rcases hu with h | h <;> rw [h] <;> rfl
    rw [callAIAgent_noRetry v u rc noResponseErr hp
      (by simp [isRateLimitOf_noResponse])]
    rw [mkEnhanced_noResponse]
  · intro v u rc s hs hu
    refine callAIAgent_ok v u rc (jsTrim s) ?_
    rw [hu]
    simp [processAttempt, extractText, contentTruthy, hs]
  · intro u rc items hu
    refine callAIAgent_ok .openRouter u rc (jsTrim (joinTextParts items)) ?_
    rw [hu]
    simp [processAttempt, extractText, contentTruthy]
  · intro u rc items hu
    refine callAIAgent_ok .groq u rc
      (jsTrim (String.intercalate "," (items.map fun _ => "[object Object]"))) ?_
    rw [hu]
    simp [processAttempt, extractText, contentTruthy]

/-- Witness for C3 amended at concrete inputs. -/
theorem C3_witness :
    callAIAgent .groq (fun _ => .success none) 0 =
      { result := .error { message := "No response from AI agent", statusCode := 500,
                           isRateLimit := false, retryCount := 0 },
        attempts := 1, sleeps := [] } ∧
    callAIAgent .openRouter (fun _ => .success (some (.str " hi "))) 0 =
      { result := .ok "hi", attempts := 1, sleeps := [] } ∧
    callAIAgent .openRouter (fun _ => .success (some (.arr [.text (some "x"), .other]))) 0 =
      { result := .ok "x", attempts := 1, sleeps := [] } ∧
    callAIAgent .groq (fun _ => .success (some (.arr [.text (some "x")]))) 0 =
      { result := .ok "[object Object]", attempts := 1, sleeps := [] } := by
  refine ⟨?_, ?_, ?_, ?_⟩
  · exact C3_content_amended.1 .groq (fun _ => .success none) 0 (Or.inl rfl)
  · exact (C3_content_amended.2.1 .openRouter (fun _ => .success (some (.str " hi "))) 0
      " hi " (by decide) rfl).trans (by decide)
  · exact (C3_content_amended.2.2.1 (fun _ => .success (some (.arr [.text (some "x"), .other])))
      0 [.text (some "x"), .other] rfl).trans (by decide)
  · exact (C3_content_amended.2.2.2 (fun _ => .success (some (.arr [.text (some "x")])))
      0 [.text (some "x")] rfl).trans (by decide)


/-! ## Claim C4 -/

/-- C4 counterexample: in the book-chat branch the caller's one-message
history is absent from the outgoing message list, which therefore differs
from the claimed `history ++ [user turn]`. -/
theorem C4_counterexample :
    bookChatOutgoing [{ role := "assistant", content := "hi" }] "P" =
      [{ role := "user", content := "P" }] ∧
    claimOutgoing [{ role := "assistant", content := "hi" }] "P" =
      [{ role := "assistant", content := "hi" }, { role := "user", content := "P" }] ∧
    bookChatOutgoing [{ role := "assistant", content := "hi" }] "P" ≠
      claimOutgoing [{ role := "assistant", content := "hi" }] "P" := by
  decide

/-- C4 amended: the assembled outgoing list is the history with role and
content unchanged and in order, plus exactly one final user turn holding the
prompt — for every direct call and for workflow steps end-to-end — but the
book-chat branch passes an empty history, so there the outgoing list is just
the single user turn regardless of the caller's history. -/
theorem C4_messages_amended :
    (∀ (history : List ChatMessage) (text : String),
      buildMessages history text = history ++ [{ role := "user", content := text }]) ∧
    (∀ (history : List ChatMessage) (prompt : String),
      workflowOutgoing history prompt = history ++ [{ role := "user", content := prompt }]) ∧
    (∀ (history : List ChatMessage) (prompt : String),
      bookChatOutgoing history prompt = [{ role := "user", content := prompt }]) := by
  have hmap : ∀ history : List ChatMessage,
      history.map (fun msg => ({ role := msg.role, content := msg.content } : ChatMessage)) =
        history := by
    intro history
    induction history with
    | nil => rfl
    | cons m rest ih => simp [ih]
  refine ⟨?_, ?_, ?_⟩
  · intro history text
    unfold buildMessages
    rw [hmap]
  · intro history prompt
    unfold workflowOutgoing buildMessages
    rw [hmap]
  · intro history prompt
    rfl


/-! ## Claims C5, C6, C7 -/

/-- C6: `formatEmotionResult` agrees everywhere with the claim's description
(first emotion of the priority list contained in the lower-cased trimmed
input, capitalized; default Neutral), always lands in the five labels, and
matches the spec's concrete examples. -/
theorem C6_format_emotion :
    (∀ s, formatEmotionResult s = formatEmotionClaim s) ∧
    (∀ s, formatEmotionResult s ∈ ["Stressed", "Happy", "Sad", "Angry", "Neutral"]) ∧
    formatEmotionResult "I feel very STRESSED today" = "Stressed" ∧
    formatEmotionResult "" = "Neutral" := by
  refine ⟨fun _ => rfl, ?_, by decide, by decide⟩
  intro s
  unfold formatEmotionResult
  rcases h : emotions.find? (fun emotion => jsIncludes (jsTrim (jsToLower s)) emotion) with
    _ | e
  · simp only [h]
    decide
  · have hm : e ∈ emotions := List.mem_of_find?_eq_some h
    fin_cases hm <;> simp only [h] <;> decide

/-- C7 counterexample: on input `"work  &  career"` (double spaces) the code
returns the default because the input is not whitespace-collapsed, while the
claim's description (which collapses the input) returns `Work & Career`. -/
theorem C7_counterexample :
    formatCategoryResult "work  &  career" = "Personal & General" ∧
    formatCategoryClaim "work  &  career" = "Work & Career" ∧
    formatCategoryResult "work  &  career" ≠ formatCategoryClaim "work  &  career" := by
  decide

/-- C7 amended: only the categories are whitespace-collapsed (a no-op on the
single-spaced labels); the input is merely lower-cased and trimmed.  The
scan order and the default are as claimed, and the result always lands in
the five labels. -/
theorem C7_format_category_amended :
    (∀ s, formatCategoryResult s = formatCategoryAmended s) ∧
    (∀ s, formatCategoryResult s ∈ categories) ∧
    formatCategoryResult "This is about my Finance & Money situation" = "Finance & Money" ∧
    formatCategoryResult "no category here" = "Personal & General" := by
  refine ⟨fun _ => rfl, ?_, by decide, by decide⟩
  intro s
  unfold formatCategoryResult
  rcases h : categories.find?
      (fun category => jsIncludes (jsTrim (jsToLower s)) (collapseWs (jsToLower category))) with
    _ | c
  · simp only [h]
    decide
  · have hm : c ∈ categories := List.mem_of_find?_eq_some h
    simp only [h]
    simpa using hm


/-! ## Claims C8, C9, C10 -/

/-- A vendor error whose message mentions the API key without the substrings
`auth` or `cookie`. -/
def apiKeyErr : VendorError := { message := some "invalid api key" }

/-- A vendor error with message `unauthorized`. -/
def unauthorizedErr : VendorError := { message := some "unauthorized" }

/-- C8 counterexample: in the OpenRouter variant a non-rate-limited failure
whose message contains `api key` (but neither `auth` nor `cookie`) keeps the
extracted status 500 and its message — it is NOT forced to 401 as claimed. -/
theorem C8_counterexample :
    jsIncludes (extractMessage apiKeyErr) "api key" = true ∧
    isRateLimitOf .openRouter apiKeyErr = false ∧
    mkEnhanced .openRouter apiKeyErr 0 =
      { message := "invalid api key", statusCode := 500,
        isRateLimit := false, retryCount := 0 } ∧
    (mkEnhanced .openRouter apiKeyErr 0).statusCode ≠ 401 := by
  decide

/-- C8 amended: the auth override applies per variant — OpenRouter when the
message contains `cookie` or `auth`, Groq when it contains `api key`, `auth`
or `unauthorized` — forcing status 401 and the authentication message; every
other non-rate-limited failure keeps the extracted status code (default
500). -/
theorem C8_auth_status_amended (v : Variant) (e : VendorError) (rc : Nat)
    (hrl : isRateLimitOf v e = false) :
    (authCond v (extractMessage e) = true →
      mkEnhanced v e rc =
        { message := authMsg v, statusCode := 401, isRateLimit := false, retryCount := rc }) ∧
    (authCond v (extractMessage e) = false →
      (mkEnhanced v e rc).statusCode = extractCode v e ∧
      (mkEnhanced v e rc).isRateLimit = false) := by
  constructor
  · intro ha
    simp [mkEnhanced, hrl, ha]
  · intro ha
    by_cases hp : providerCond v (extractMessage e) = true <;>
      simp [mkEnhanced, hrl, ha, hp]

/-- Witness for C8 amended at concrete inputs: a Groq `unauthorized` message
is forced to 401; an unclassified failure keeps its extracted status 418. -/
theorem C8_witness :
    mkEnhanced .groq unauthorizedErr 0 =
      { message := authMsg .groq, statusCode := 401, isRateLimit := false, retryCount := 0 } ∧
    (mkEnhanced .groq { message := some "boom", statusCode := some 418 } 0).statusCode = 418 := by
  constructor
  · exact (C8_auth_status_amended .groq unauthorizedErr 0 (by decide)).1 (by decide)
  · exact ((C8_auth_status_amended .groq { message := some "boom", statusCode := some 418 } 0
      (by decide)).2 (by decide)).1.trans (by decide)

/-- C9: a request whose `text` is missing (or empty, which JS also treats as
falsy) is answered 400 `Text is required` with zero upstream calls, in both
handler variants; in the strict variant a missing `stepType` is answered 400
`stepType is required`, also with zero upstream calls. -/
theorem C9_validation :
    (∀ (req : ChatRequest) (agent : Except CaughtError String),
      strTruthy req.text = false →
      handleChatServer req agent =
        ({ status := 400, body := .invalid "Text is required" false }, 0)) ∧
    (∀ (req : ChatRequest) (agent : Except CaughtError String),
      strTruthy req.text = false →
      handleChatStrict req agent =
        ({ status := 400, body := .invalid "Text is required" false }, 0)) ∧
    (∀ (req : ChatRequest) (agent : Except CaughtError String),
      strTruthy req.text = true → strTruthy req.stepType = false →
      handleChatStrict req agent =
        ({ status := 400, body := .invalid "stepType is required" false }, 0)) := by
  refine ⟨?_, ?_, ?_⟩
  · intro req agent h
    simp [handleChatServer, h]
  · intro req agent h
    simp [handleChatStrict, h]
  · intro req agent ht hs
    simp [handleChatStrict, ht, hs]

/-- Witness for C9 at concrete requests. -/
theorem C9_witness :
    handleChatServer { text := none } (.ok "hello") =
      ({ status := 400, body := .invalid "Text is required" false }, 0) ∧
    handleChatStrict { text := some "hi" } (.ok "hello") =
      ({ status := 400, body := .invalid "stepType is required" false }, 0) := by
  constructor
  · exact C9_validation.1 { text := none } (.ok "hello") (by decide)
  · exact C9_validation.2.2 { text := some "hi" } (.ok "hello") (by decide) (by decide)

/-- C10: any caught error with `isRateLimit` or status 429 has its HTTP
message replaced by the fixed rate-limit text, regardless of retry count; in
particular every rate-limited `enhancedError` of the completion client is so
replaced, and the client's retries-exhausted wording never reaches the HTTP
body. -/
theorem C10_rate_limit_message :
    (∀ e : CaughtError, e.isRateLimit = true ∨ catchStatus e = 429 →
      (serverCatch e).error = rateLimitHttpMsg ∧
      (serverCatch e).error ≠ exhaustedRateMsg) ∧
    (∀ (v : Variant) (err : VendorError) (rc : Nat),
      isRateLimitOf v err = true →
      (serverCatch (toCaught (mkEnhanced v err rc))).error = rateLimitHttpMsg) ∧
    rateLimitHttpMsg ≠ exhaustedRateMsg := by
  have h1 : ∀ e : CaughtError, e.isRateLimit = true ∨ catchStatus e = 429 →
      (serverCatch e).error = rateLimitHttpMsg := by
    intro e h
    rcases h with h | h <;> simp [serverCatch, catchMessage, h]
  refine ⟨?_, ?_, by decide⟩
  · intro e h
    refine ⟨h1 e h, ?_⟩
    rw [h1 e h]
    decide
  · intro v err rc hrl
    apply h1
    left
    simp [toCaught, mkEnhanced, hrl]

/-- Witness for C10 at concrete errors, including the exhausted-retries
enhanced error itself. -/
theorem C10_witness :
    (serverCatch { isRateLimit := true }).error = rateLimitHttpMsg ∧
    (serverCatch (toCaught (mkEnhanced .openRouter always429 3))).error = rateLimitHttpMsg ∧
    mkEnhanced .openRouter always429 3 =
      { message := exhaustedRateMsg, statusCode := 429, isRateLimit := true, retryCount := 3 } := by
  refine ⟨?_, ?_, by decide⟩
  · exact (C10_rate_limit_message.1 { isRateLimit := true } (Or.inl rfl)).1
  · exact C10_rate_limit_message.2.1 .openRouter always429 3 (by decide)


end AIFlow
